import Mathlib

/-!
Verification development for the kairon bot-trainer repository.

Shallow embedding of:
  * `bot_trainer/data_processor/data_objects.py` (document schema layer:
    records and their `validate()` contracts),
  * `bot_trainer/data_processor/processor.py` (`MongoProcessor`: the bot data
    repository over an explicit document-store state), and
  * `kairon/chat/handlers/channels/whatsapp.py` (channel message normalizer
    and webhook dispatcher).

The document storage engine (mongoengine/MongoDB) is an external collaborator:
collections are embedded as lists of records inside an explicit `DB` state,
`insert`/`save` append records (ids drawn from a `nextId` counter standing for
Mongo object-id generation), queries are list filters, and the `$group`
aggregation is modelled as a first-occurrence grouping function.  Fallible
operations return `Except String`, the string being the raised exception's
message.
-/

namespace BotTrainer

/-- Python whitespace characters (the ones `str.strip` removes). -/
def isBlankChar (c : Char) : Bool :=
  c == ' ' || c == '\t' || c == '\n' || c == '\r'

/-- Modelled from the spec: `Utility.check_empty_string` (bot_trainer/utils.py,
not under src/) — true iff the string is `None`/empty or only blank spaces
("cannot be empty or blank spaces" checks throughout the schema layer). -/
def check_empty_string (value : String) : Bool :=
  value.toList.all isBlankChar

/-- Python string slicing `s[a:b]` for non-negative character offsets:
characters at positions `a, …, b-1`, clamped to the string's length, empty
when `b ≤ a`.  Entity offsets produced by the markdown entity extractor are
non-negative, so they are embedded as naturals. -/
def pythonSlice (s : String) (a b : Nat) : String :=
  String.mk ((s.toList.drop a).take (b - a))

/-- `Entity` embedded document (data_objects.py): an entity span of a training
example.  `end` is a Lean keyword, so the field is named `stop`. -/
structure Entity where
  start : Nat
  stop : Nat
  value : String
  entity : String
deriving DecidableEq, Repr

/-- `TrainingExamples` document (data_objects.py). -/
structure TrainingExamples where
  intent : String
  text : String
  bot : String
  entities : List Entity
  user : String
  status : Bool
deriving DecidableEq, Repr

/-- The entity loop of `TrainingExamples.validate`: for each entity,
`extracted_ent = self.text[ent.start:ent.end]`; raise `ValidationError` on the
first entity whose extracted span differs from its `value`. -/
def checkEntities (text : String) : List Entity → Except String Unit
  | [] => .ok ()
  | ent :: rest =>
    let extracted_ent := pythonSlice text ent.start ent.stop
    if extracted_ent ≠ ent.value then
      .error ("Invalid entity: " ++ ent.entity ++ ", value: " ++ ent.value
        ++ " does not match with the position in the text " ++ extracted_ent)
    else checkEntities text rest

/-- `TrainingExamples.validate` (data_objects.py): when the entities list is
truthy (non-empty) every entity span must match the text; otherwise the text
and intent must be non-blank. -/
def TrainingExamples.validate (t : TrainingExamples) : Except String Unit :=
  if t.entities.isEmpty then
    if check_empty_string t.text || check_empty_string t.intent then
      .error "Training Example name and text cannot be empty or blank spaces"
    else .ok ()
  else checkEntities t.text t.entities

theorem checkEntities_ok_iff (text : String) (es : List Entity) :
    checkEntities text es = .ok () ↔
      ∀ e ∈ es, pythonSlice text e.start e.stop = e.value := by
  induction es with
  | nil => simp [checkEntities]
  | cons ent rest ih =>
    by_cases h : pythonSlice text ent.start ent.stop = ent.value
    · simp [checkEntities, h, ih]
    · simp [checkEntities, h]

/-- C2: for every `TrainingExamples` record with a non-empty entities list,
`validate()` succeeds iff every entity satisfies `text[start:end] == value`;
equivalently it raises a `ValidationError` exactly when some entity's extracted
span differs from its value. -/
theorem trainingExamples_validate_entities (t : TrainingExamples)
    (h : t.entities ≠ []) :
    t.validate = .ok () ↔
      ∀ e ∈ t.entities, pythonSlice t.text e.start e.stop = e.value := by
  unfold TrainingExamples.validate
  rw [if_neg (by simpa using h)]
  exact checkEntities_ok_iff t.text t.entities

theorem trainingExamples_validate_entities_witness :
    (([⟨0, 5, "hello", "greeting"⟩] : List Entity) ≠ []) ∧
      (TrainingExamples.validate
          ⟨"greet", "hello world", "test_bot", [⟨0, 5, "hello", "greeting"⟩],
            "test_user", true⟩ = .ok () ↔
        ∀ e ∈ ([⟨0, 5, "hello", "greeting"⟩] : List Entity),
          pythonSlice "hello world" e.start e.stop = e.value) :=
  ⟨by decide,
    trainingExamples_validate_entities
      ⟨"greet", "hello world", "test_bot", [⟨0, 5, "hello", "greeting"⟩],
        "test_user", true⟩ (by decide)⟩

/-- `StoryEvents` embedded document (data_objects.py): a stored story event,
`name` plus `type` (`"user"` or `"action"`). -/
structure StoryEvents where
  name : String
  type : String
deriving DecidableEq, Repr

/-- `Stories` document (data_objects.py). -/
structure Stories where
  block_name : String
  events : List StoryEvents
  bot : String
  user : String
  status : Bool
deriving DecidableEq, Repr

/-- `isinstance(event, UserUttered)` where `event` is a `StoryEvents` embedded
document: the elements of `Stories.events` are `StoryEvents` documents, never
rasa `UserUttered` event objects, so the check is false for every element. -/
def isinstanceUserUttered (_ : StoryEvents) : Bool := false

/-- `isinstance(event, ActionExecuted)` where `event` is a `StoryEvents`
embedded document: false for every element, as for `isinstanceUserUttered`. -/
def isinstanceActionExecuted (_ : StoryEvents) : Bool := false

/-- `Stories.validate` (data_objects.py): blank-name check, then
`isinstance(self.events[0], UserUttered)` raises "Stories must start with
intent" and `isinstance(self.events[-1], ActionExecuted)` raises "Stories must
end with action".  `events[0]` on an empty list is a Python `IndexError`. -/
def Stories.validate (s : Stories) : Except String Unit :=
  if check_empty_string s.block_name then
    .error "Story path name cannot be empty or blank spaces"
  else
    match s.events with
    | [] => .error "IndexError"
    | first :: rest =>
      if isinstanceUserUttered first then
        .error "Stories must start with intent"
      else if isinstanceActionExecuted ((first :: rest).getLastD first) then
        .error "Stories must end with action"
      else .ok ()

/-- C3: `Stories.validate` does not enforce the claimed start/end invariant.
The story below starts with an action event and ends with a user event — by
the claim it must be rejected with "Stories must start with intent" — yet
`validate` accepts it, because both `isinstance` checks compare `StoryEvents`
embedded documents against rasa event classes and are therefore always false
(and their sense is inverted besides: they would raise precisely when the
story DOES start with a user utterance).  A story in the claimed shape is
accepted as well: `validate` accepts every story with a non-blank name. -/
theorem stories_validate_not_enforced :
    Stories.validate
        ⟨"path1", [⟨"action_hello", "action"⟩, ⟨"greet", "user"⟩],
          "test_bot", "test_user", true⟩ = .ok () ∧
      Stories.validate
        ⟨"path2", [⟨"greet", "user"⟩, ⟨"action_hello", "action"⟩],
          "test_bot", "test_user", true⟩ = .ok () :=
  ⟨rfl, rfl⟩

/-- `Slots` document (data_objects.py).  `min_value`/`max_value` are numeric
fields that the code compares and defaults to the floats `0.0`/`1.0`; they are
embedded as `Option ℚ` (unset = `none`).  `initial_value` is a `DynamicField`,
embedded as `Option Int` — it feeds only the dead `isinstance` branch of
`validate`. -/
structure Slots where
  name : String
  type : String
  initial_value : Option Int
  value_reset_delay : Option Int
  auto_fill : Bool
  value : Option String
  values : List String
  max_value : Option ℚ
  min_value : Option ℚ
  bot : String
  user : String
  status : Bool
deriving DecidableEq, Repr

/-- Python truthiness of an optional numeric field: `not self.min_value` is
true when the field is unset (`None`) or zero. -/
def numFalsy : Option ℚ → Bool
  | none => true
  | some x => x == 0

/-- `Slots.validate` (data_objects.py).  Mirrors the source faithfully:

* blank name/type raises (a `ValueError` in the source);
* for a `float` slot, when `min_value` and `max_value` are both falsy they are
  set to `0.0` and `1.0`; then `self.min_value < self.max_value` is evaluated —
  a `TypeError` when one side is still `None` — but its result only assigns
  the local `error` string, which is never raised (the source builds
  `ValidationError(error)` without `raise`), so every float slot that reaches
  the comparison with two numbers validates successfully;
* a `categorical` slot with an empty `values` list raises.

`validate` mutates the record (the float defaults), so the embedding returns
the updated record. -/
def Slots.validate (s : Slots) : Except String Slots :=
  if check_empty_string s.name || check_empty_string s.type then
    .error "Slot name and type cannot be empty or blank spaces"
  else if s.type == "float" then
    let s1 :=
      if numFalsy s.min_value && numFalsy s.max_value then
        { s with min_value := some 0, max_value := some 1 }
      else s
    match s1.min_value, s1.max_value with
    | some _, some _ => .ok s1
    | _, _ => .error "TypeError"
  else if s.type == "categorical" then
    if s.values.isEmpty then
      .error "CategoricalSlot must have list of categories in values field"
    else .ok s
  else .ok s

/-- A float slot with both bounds unset (claim C8, default case). -/
def floatSlotUnset : Slots :=
  ⟨"budget", "float", none, none, true, none, [], none, none,
    "test_bot", "test_user", true⟩

/-- A float slot with `min_value = 5 ≥ 1 = max_value` (claim C8, rejection
case). -/
def floatSlotBad : Slots :=
  ⟨"budget", "float", none, none, true, none, [], some 1, some 5,
    "test_bot", "test_user", true⟩

/-- A categorical slot with an empty `values` list (claim C8, empty case). -/
def categoricalSlotEmpty : Slots :=
  ⟨"cuisine", "categorical", none, none, true, none, [], none, none,
    "test_bot", "test_user", true⟩

/-- C8: of the three claimed behaviours of `Slots.validate`, the first two
hold — a categorical slot with empty `values` is rejected, and a float slot
with both bounds unset gets the defaults `(0.0, 1.0)` — but the third fails:
a float slot with `min_value = 5` and `max_value = 1` (min not less than max)
is ACCEPTED, because the source inverts the comparison (it assigns the error
string when `min_value < max_value`) and never raises the `ValidationError` it
builds. -/
theorem slots_validate_behaviour :
    Slots.validate categoricalSlotEmpty =
        .error "CategoricalSlot must have list of categories in values field" ∧
      Slots.validate floatSlotUnset =
        .ok { floatSlotUnset with min_value := some 0, max_value := some 1 } ∧
      Slots.validate floatSlotBad = .ok floatSlotBad :=
  ⟨rfl, rfl, rfl⟩

end BotTrainer

namespace KaironChat

/-- A JSON-like value, enough for whatsapp webhook message payloads (nested
objects of strings). -/
inductive JVal where
  | str (s : String)
  | obj (fields : List (String × JVal))

/-- Key lookup in an object's field list (Python `dict` access; keys are
unique in a dict, so first match). -/
def jlookup (fields : List (String × JVal)) (k : String) : Option JVal :=
  match fields with
  | [] => none
  | (k', v) :: rest => if k' == k then some v else jlookup rest k

/-- Python `d.get(k)`: `none` when `d` is not an object or lacks the key. -/
def jget (v : JVal) (k : String) : Option JVal :=
  match v with
  | .obj fields => jlookup fields k
  | .str _ => none

/-- `d.get(k)` restricted to string values: `none` when absent or when the
value is not a string (a non-string value never compares equal to a string
literal in the dispatch, and never indexes as a key). -/
def jgetStr (v : JVal) (k : String) : Option String :=
  match jget v k with
  | some (.str s) => some s
  | _ => none

/-- `Whatsapp.message` (whatsapp.py), the channel message normalizer, up to
the text it passes to `_handle_user_message`:

* `.ok (some text)` — a message with the given canonical text is produced;
* `.ok none` — unrecognized payload shape, logged and skipped silently;
* `.error e` — an uncaught Python exception (e.g. `KeyError`).

Dispatch order as in the source: `interactive`, then `text`, then `button`,
then the media kinds.  In the media branch the source first reassigns
`message['type'] = "audio"` when the type is `voice`, and then looks the media
object up under `message[message['type']]` — i.e. under the ALIASED type. -/
def whatsapp_message_text (message : JVal) : Except String (Option String) :=
  let ty := jgetStr message "type"
  if ty == some "interactive" then
    match jget message "interactive" with
    | none => .error "AttributeError"
    | some interactive =>
      match jgetStr interactive "type" with
      | none => .error "KeyError"
      | some interactive_type =>
        match jget interactive interactive_type with
        | none => .error "KeyError"
        | some sub =>
          match jget sub "id" with
          | some (.str t) => .ok (some t)
          | _ => .error "KeyError"
  else if ty == some "text" then
    match jget message "text" with
    | none => .error "KeyError"
    | some body =>
      match jget body "body" with
      | some (.str t) => .ok (some t)
      | _ => .error "KeyError"
  else if ty == some "button" then
    match jget message "button" with
    | none => .error "KeyError"
    | some button =>
      match jget button "text" with
      | some (.str t) => .ok (some t)
      | _ => .error "KeyError"
  else if ty == some "image" || ty == some "audio" || ty == some "document"
      || ty == some "video" || ty == some "voice" then
    match ty with
    | some ty0 =>
      let tyAliased := if ty0 == "voice" then "audio" else ty0
      match jget message tyAliased with
      | none => .error "KeyError"
      | some media =>
        match jget media "id" with
        | some (.str mediaId) =>
          .ok (some ("/k_multimedia_msg\x7b\"" ++ tyAliased ++ "\": \""
            ++ mediaId ++ "\"\x7d"))
        | _ => .error "KeyError"
    | none => .error "unreachable"
  else
    .ok none

/-- C4: behaviour of the whatsapp message normalizer on the claimed payload
shapes.  The text, unknown-type, media and dispatch-order cases match the
claim, but the `voice` case does not: the source reassigns `message['type']`
to `"audio"` BEFORE looking up the media object, so for the payload
`("type" : "voice", "voice" : ("id" : "abc"))` it evaluates
`message["audio"]`, which does not exist, and raises a `KeyError` instead of
producing the `/k_multimedia_msg` marker text. -/
theorem whatsapp_message_text_cases :
    whatsapp_message_text
        (.obj [("type", .str "text"), ("text", .obj [("body", .str "hello")])])
      = .ok (some "hello") ∧
    whatsapp_message_text
        (.obj [("type", .str "voice"), ("voice", .obj [("id", .str "abc")])])
      = .error "KeyError" ∧
    whatsapp_message_text
        (.obj [("type", .str "image"), ("image", .obj [("id", .str "xyz")])])
      = .ok (some "/k_multimedia_msg\x7b\"image\": \"xyz\"\x7d") ∧
    whatsapp_message_text (.obj [("type", .str "unknown_kind")])
      = .ok none ∧
    whatsapp_message_text
        (.obj [("type", .str "button"), ("button", .obj [("text", .str "B")]),
          ("text", .obj [("body", .str "T")])])
      = .ok (some "B") ∧
    whatsapp_message_text
        (.obj [("type", .str "interactive"),
          ("interactive", .obj [("type", .str "button_reply"),
            ("button_reply", .obj [("id", .str "opt1")])]),
          ("text", .obj [("body", .str "T")])])
      = .ok (some "opt1") :=
  ⟨rfl, rfl, rfl, rfl, rfl, rfl⟩

/-- The whatsapp channel configuration fields that `handle_payload` reads:
`config.get("bsp_type", "meta")` and `config["app_secret"]`. -/
structure WhatsappChannelConfig where
  bsp_type : Option String
  app_secret : String

/-- `Whatsapp.handle_payload` (whatsapp.py).  The signature check
(`MessengerHandler.validate_hub_signature`, computed over the raw body with
the per-bot `app_secret` — external to the files under verification) is passed
in as its boolean outcome `sigValid`.  Returns the acknowledgment string
together with whether asynchronous processing of the payload was scheduled
(`IOLoop.current().spawn_callback(self.__handle_meta_payload, …)`); the
function returns without awaiting that processing. -/
def handle_payload (config : WhatsappChannelConfig) (sigValid : Bool) :
    String × Bool :=
  let msg := "success"
  let provider := config.bsp_type.getD "meta"
  if provider == "meta" then
    if !sigValid then ("not validated", false)
    else (msg, true)
  else (msg, true)

/-- C5: with a configured secret (the `meta` provider, the one that validates
`X-Hub-Signature` against `app_secret`), `handle_payload` returns the
acknowledgment `"success"` and schedules asynchronous processing of the
payload when the signature is valid, and returns `"not validated"` without
scheduling any processing when it is not. -/
theorem handle_payload_signature (config : WhatsappChannelConfig)
    (sigValid : Bool) (h : config.bsp_type.getD "meta" = "meta") :
    (sigValid = true → handle_payload config sigValid = ("success", true)) ∧
      (sigValid = false →
        handle_payload config sigValid = ("not validated", false)) := by
  constructor
  · intro hs
    simp [handle_payload, h, hs]
  · intro hs
    simp [handle_payload, h, hs]

theorem handle_payload_signature_witness :
    handle_payload ⟨some "meta", "secret"⟩ true = ("success", true) ∧
      handle_payload ⟨some "meta", "secret"⟩ false = ("not validated", false) :=
  ⟨(handle_payload_signature ⟨some "meta", "secret"⟩ true rfl).1 rfl,
    (handle_payload_signature ⟨some "meta", "secret"⟩ false rfl).2 rfl⟩

end KaironChat

namespace BotTrainer

/-- `Intents` document (data_objects.py). -/
structure IntentRec where
  id : Nat
  name : String
  bot : String
  user : String
  status : Bool
deriving DecidableEq, Repr

/-- `Entities` document (data_objects.py). -/
structure EntityRec where
  id : Nat
  name : String
  bot : String
  user : String
  status : Bool
deriving DecidableEq, Repr

/-- `Actions` document (data_objects.py). -/
structure ActionRec where
  id : Nat
  name : String
  bot : String
  user : String
  status : Bool
deriving DecidableEq, Repr

/-- `TrainingExamples` document as stored in the collection (the
`TrainingExamples` structure above plus the generated object id). -/
structure TrainingExampleRec where
  id : Nat
  intent : String
  text : String
  bot : String
  entities : List Entity
  user : String
  status : Bool
deriving DecidableEq, Repr

/-- `EntitySynonyms` document (data_objects.py). -/
structure EntitySynonymRec where
  bot : String
  synonym : String
  value : String
  user : String
  status : Bool
deriving DecidableEq, Repr

/-- `LookupTables` document (data_objects.py). -/
structure LookupTableRec where
  name : String
  value : String
  bot : String
  user : String
  status : Bool
deriving DecidableEq, Repr

/-- `RegexFeatures` document (data_objects.py). -/
structure RegexFeatureRec where
  name : String
  pattern : String
  bot : String
  user : String
  status : Bool
deriving DecidableEq, Repr

/-- `SessionConfigs` document (data_objects.py).  Note: the source declares
no unique index on `bot` (and no `status` field). -/
structure SessionConfigRec where
  sesssionExpirationTime : Int
  carryOverSlots : Bool
  bot : String
  user : String
deriving DecidableEq, Repr

/-- The document store: one list per collection, in insertion order, plus the
id counter standing for Mongo object-id generation. -/
structure DB where
  trainingExamples : List TrainingExampleRec
  entitySynonyms : List EntitySynonymRec
  lookupTables : List LookupTableRec
  regexFeatures : List RegexFeatureRec
  intents : List IntentRec
  entities : List EntityRec
  actions : List ActionRec
  slots : List Slots
  sessionConfigs : List SessionConfigRec
  nextId : Nat
deriving DecidableEq, Repr

/-- The empty document store. -/
def emptyDB : DB :=
  ⟨[], [], [], [], [], [], [], [], [], 0⟩

/-! ### Intents: `add_intent`, `get_intents` (processor.py) -/

/-- `__isExist(Intents, bot=bot, query=(name : text))` (processor.py): the
raw query filters on `bot` and `name` only — not on `status`. -/
def isExist_intent (s : DB) (bot name : String) : Bool :=
  s.intents.any (fun r => r.bot == bot && r.name == name)

/-- `MongoProcessor.add_intent` (processor.py): raise "Intent already exist!"
when an intent with that name exists for the bot (any status), else
`Intents(name=text, bot=bot, user=user).save()`.  `save()` invokes the
overridden `Intents.validate` (data_objects.py) before persisting, which
raises `ValidationError` for an empty/blank name. -/
def add_intent (s : DB) (text bot user : String) : Except String DB :=
  if isExist_intent s bot text then .error "Intent already exist!"
  else if check_empty_string text then
    .error "Intent Name cannot be empty or blank spaces"
  else
    .ok { s with
      intents := s.intents ++ [⟨s.nextId, text, bot, user, true⟩],
      nextId := s.nextId + 1 }

/-- `MongoProcessor.get_intents` (processor.py): all intents of the bot —
no `status` filter — as `(_id, name)` pairs
(`__prepare_document_list(intents, 'name')`). -/
def get_intents (s : DB) (bot : String) : List (Nat × String) :=
  (s.intents.filter (fun r => r.bot == bot)).map (fun r => (r.id, r.name))

/-- C6: starting from a state with no intent named `name` for the bot — the
name non-blank, so that the save-time `Intents.validate` accepts it — the
first `add_intent` succeeds and a second `add_intent` with the same name fails
with "Intent already exist!" (aborting before any insert), after which
`get_intents` reports exactly one record with that name. -/
theorem add_intent_duplicate (s : DB) (name bot user₁ user₂ : String)
    (hname : check_empty_string name = false)
    (h : s.intents.countP (fun r => r.bot == bot && r.name == name) = 0) :
    ∃ s₁, add_intent s name bot user₁ = .ok s₁ ∧
      add_intent s₁ name bot user₂ = .error "Intent already exist!" ∧
      (get_intents s₁ bot).countP (fun p => p.2 == name) = 1 := by
  have hall : ∀ r ∈ s.intents, ¬((r.bot == bot && r.name == name) = true) :=
    List.countP_eq_zero.mp h
  have hex : isExist_intent s bot name = false := by
    simp only [isExist_intent, Bool.eq_false_iff, ne_eq, List.any_eq_true,
      not_exists, not_and]
    intro r hr
    exact hall r hr
  refine ⟨{ s with
      intents := s.intents ++ [⟨s.nextId, name, bot, user₁, true⟩],
      nextId := s.nextId + 1 }, ?_, ?_, ?_⟩
  · simp [add_intent, hex, hname]
  · simp [add_intent, isExist_intent]
  · have hz : s.intents.countP
        (fun r => ((r.id, r.name).2 == name) && (r.bot == bot)) = 0 := by
      refine List.countP_eq_zero.mpr ?_
      intro r hr hc
      refine hall r hr ?_
      simpa [Bool.and_comm] using hc
    simp only [get_intents, List.filter_append, List.map_append,
      List.countP_append, List.countP_map]
    rw [List.countP_filter, List.countP_filter]
    rw [Function.comp_def]
    rw [hz]
    simp

/-- The rows `fetch_intents` aggregates over: `Intents.objects(bot=bot,
status=True)` (processor.py). -/
def active_intent_rows (s : DB) (bot : String) : List IntentRec :=
  s.intents.filter (fun r => r.bot == bot && r.status == true)

/-- `MongoProcessor.fetch_intents`/`__prepare_training_intents`
(processor.py): the `$group` aggregation over the bot's active intents pushes
their names; the load path consumes that name list. -/
def fetch_intents (s : DB) (bot : String) : List String :=
  (active_intent_rows s bot).map (·.name)

/-- `MongoProcessor.remove_document` (processor.py), instantiated at the
`Intents` collection: `document.objects().get(id=id)` — a collection-wide
lookup by object id, raising `DoesNotExist` on zero matches and
`MultipleObjectsReturned` on several, both caught and re-raised as
"Unable to remove document" — followed by `doc.update(status=False)`. -/
def remove_document_intents (s : DB) (docId : Nat) : Except String DB :=
  match s.intents.filter (fun r => r.id == docId) with
  | [_] => .ok { s with
      intents := s.intents.map
        (fun r => if r.id == docId then { r with status := false } else r) }
  | _ => .error "Unable to remove document"

theorem remove_document_intents_ok (s : DB) (docId : Nat) (r : IntentRec)
    (hfil : s.intents.filter (fun x => x.id == docId) = [r]) :
    remove_document_intents s docId = .ok { s with
      intents := s.intents.map
        (fun x => if x.id == docId then { x with status := false } else x) } := by
  rw [remove_document_intents, hfil]

/-- C7: `remove_document` on the id of an existing record soft-deletes it:
the result keeps every record, the targeted record keeps all its fields except
`status` which becomes `false`, every other record is untouched; when no
record with the id exists it fails with the fixed message "Unable to remove
document"; a second `remove_document` on the same id succeeds again; and the
load path (`fetch_intents`, which reads only `status=True` rows) no longer
sees the soft-deleted record. -/
theorem remove_document_spec (s : DB) (docId : Nat) :
    ((s.intents.filter (fun r => r.id == docId) = []) →
        remove_document_intents s docId = .error "Unable to remove document") ∧
      ∀ r : IntentRec, s.intents.filter (fun x => x.id == docId) = [r] →
        ∃ s', remove_document_intents s docId = .ok s' ∧
          s'.intents.length = s.intents.length ∧
          ({ r with status := false } : IntentRec) ∈ s'.intents ∧
          (∀ x ∈ s.intents, x.id ≠ docId → x ∈ s'.intents) ∧
          s'.intents.filter (fun x => x.id == docId) =
            [{ r with status := false }] ∧
          (∃ s'', remove_document_intents s' docId = .ok s'') ∧
          (∀ b, ∀ x ∈ active_intent_rows s' b, x.id ≠ docId) := by
  constructor
  · intro hfil
    rw [remove_document_intents, hfil]
  · intro r hfil
    have hrmem : r ∈ s.intents ∧ (r.id == docId) = true := by
      have : r ∈ s.intents.filter (fun x => x.id == docId) := by
        rw [hfil]; exact List.mem_singleton.mpr rfl
      exact List.mem_filter.mp this
    have hfilter_map : (s.intents.map
          (fun x => if x.id == docId then { x with status := false } else x)).filter
          (fun x => x.id == docId) =
        (s.intents.filter (fun x => x.id == docId)).map
          (fun x => if x.id == docId then { x with status := false } else x) := by
      rw [List.filter_map]
      congr 1
      refine List.filter_congr ?_
      intro x _
      by_cases hx : (x.id == docId) = true
      · simp [Function.comp, hx]
      · simp [Function.comp, hx]
    have h5 : (s.intents.map
          (fun x => if x.id == docId then { x with status := false } else x)).filter
          (fun x => x.id == docId) = [{ r with status := false }] := by
      rw [hfilter_map, hfil]
      simp only [List.map_cons, List.map_nil]
      rw [if_pos hrmem.2]
    refine ⟨_, remove_document_intents_ok s docId r hfil, ?_, ?_, ?_, h5, ?_, ?_⟩
    · exact List.length_map _ _
    · refine List.mem_map.mpr ⟨r, hrmem.1, ?_⟩
      rw [if_pos hrmem.2]
    · intro x hx hxid
      refine List.mem_map.mpr ⟨x, hx, ?_⟩
      rw [if_neg (by simpa using hxid)]
    · exact ⟨_, remove_document_intents_ok _ docId { r with status := false } h5⟩
    · intro b x hx hxid
      have hx' := List.mem_filter.mp hx
      have hstat : x.status = true := by
        have := hx'.2
        simp only [Bool.and_eq_true, beq_iff_eq] at this
        exact this.2
      rcases List.mem_map.mp hx'.1 with ⟨y, _, hy⟩
      by_cases hyid : (y.id == docId) = true
      · rw [if_pos hyid] at hy
        rw [← hy] at hstat
        simp at hstat
      · rw [if_neg hyid] at hy
        rw [← hy] at hxid
        simp only [beq_iff_eq] at hyid
        exact hyid hxid

/-- A concrete store with two intents, for exercising `remove_document`. -/
def removeDemoDB : DB :=
  { emptyDB with
    intents := [⟨0, "greet", "test_bot", "u", true⟩,
      ⟨1, "bye", "test_bot", "u", true⟩],
    nextId := 2 }

theorem remove_document_spec_witness :
    (remove_document_intents removeDemoDB 7 =
        .error "Unable to remove document") ∧
      ∃ s', remove_document_intents removeDemoDB 0 = .ok s' ∧
        s'.intents.length = removeDemoDB.intents.length ∧
        ({ (⟨0, "greet", "test_bot", "u", true⟩ : IntentRec) with
          status := false } : IntentRec) ∈ s'.intents ∧
        (∀ x ∈ removeDemoDB.intents, x.id ≠ 0 → x ∈ s'.intents) ∧
        s'.intents.filter (fun x => x.id == 0) =
          [{ (⟨0, "greet", "test_bot", "u", true⟩ : IntentRec) with
            status := false }] ∧
        (∃ s'', remove_document_intents s' 0 = .ok s'') ∧
        (∀ b, ∀ x ∈ active_intent_rows s' b, x.id ≠ 0) :=
  ⟨(remove_document_spec removeDemoDB 7).1 rfl,
    (remove_document_spec removeDemoDB 0).2
      ⟨0, "greet", "test_bot", "u", true⟩ rfl⟩

theorem add_intent_duplicate_witness :
    ∃ s₁, add_intent emptyDB "greet" "test_bot" "u1" = .ok s₁ ∧
      add_intent s₁ "greet" "test_bot" "u2" = .error "Intent already exist!" ∧
      (get_intents s₁ "test_bot").countP (fun p => p.2 == "greet") = 1 :=
  add_intent_duplicate emptyDB "greet" "test_bot" "u1" "u2" (by decide)
    (by decide)

/-! ### Session config: `__save_session_config`, `fetch_session_config`,
`__prepare_training_session_config` (processor.py) -/

/-- The in-memory rasa `SessionConfig` pair that `save_domain` decomposes. -/
structure SessionConfigIn where
  session_expiration_time : Int
  carry_over_slots : Bool
deriving DecidableEq, Repr

/-- `MongoProcessor.__save_session_config` (processor.py): inserts a
`SessionConfigs` record for the bot.  The source wraps the insert in
`except NotUniqueError: raise Exception("Session Config already exist for the
bot")`, but `SessionConfigs` (data_objects.py) declares no unique index on
`bot` (nor any other unique constraint), so the storage engine never raises
`NotUniqueError` and the insert always succeeds, duplicates included. -/
def save_session_config (s : DB) (session_config : SessionConfigIn)
    (bot user : String) : Except String DB :=
  .ok { s with sessionConfigs := s.sessionConfigs ++
    [⟨session_config.session_expiration_time, session_config.carry_over_slots,
      bot, user⟩] }

/-- `MongoProcessor.fetch_session_config` (processor.py):
`SessionConfigs.objects.get(bot=bot)` — `DoesNotExist` (zero matches) is
caught and turned into `None`, but `MultipleObjectsReturned` (several matches)
is not caught and propagates. -/
def fetch_session_config (s : DB) (bot : String) :
    Except String (Option SessionConfigRec) :=
  match s.sessionConfigs.filter (fun c => c.bot == bot) with
  | [] => .ok none
  | [c] => .ok (some c)
  | _ => .error "MultipleObjectsReturned"

/-- `MongoProcessor.__prepare_training_session_config` (processor.py): the
stored singleton when present, else `SessionConfig.default()` — the rasa
default `(session_expiration_time = 60, carry_over_slots = True)`, matching
the spec's hardcoded defaults. -/
def prepare_training_session_config (s : DB) (bot : String) :
    Except String (Int × Bool) :=
  match fetch_session_config s bot with
  | .ok (some c) => .ok (c.sesssionExpirationTime, c.carryOverSlots)
  | .ok none => .ok (60, true)
  | .error e => .error e

/-- C9: the singleton invariant on `SessionConfigs` is NOT enforced.  Loading
for a bot with no stored config does fall back to the defaults `(60, true)`
(second half of the claim holds), but saving a session config for a bot that
already has one SUCCEEDS and inserts a second record — the `NotUniqueError`
handler carrying "Session Config already exist for the bot" is dead code since
the schema declares no unique index on `bot` — after which loading the session
config raises `MultipleObjectsReturned` instead of returning either record. -/
theorem session_config_not_singleton :
    prepare_training_session_config emptyDB "test_bot" = .ok (60, true) ∧
      ∃ s₁ s₂,
        save_session_config emptyDB ⟨30, false⟩ "test_bot" "u" = .ok s₁ ∧
        save_session_config s₁ ⟨45, true⟩ "test_bot" "u" = .ok s₂ ∧
        (s₂.sessionConfigs.filter (fun c => c.bot == "test_bot")).length = 2 ∧
        prepare_training_session_config s₂ "test_bot" =
          .error "MultipleObjectsReturned" :=
  ⟨rfl, _, _, rfl, rfl, rfl, rfl⟩

/-! ### Entities, actions and training examples:
`add_entity`/`get_entities`, `add_action`/`get_actions`,
`add_training_example`/`get_training_examples` (processor.py) -/

/-- A fresh `text`-typed slot, `Slots(name=name, type='text', bot=bot,
user=user)` with the declared field defaults. -/
def newTextSlot (name bot user : String) : Slots :=
  ⟨name, "text", none, none, true, none, [], none, none, bot, user, true⟩

/-- `__isExist(Entities, …)`: filters on `bot` and `name` only, not on
`status`. -/
def isExist_entity (s : DB) (bot name : String) : Bool :=
  s.entities.any (fun r => r.bot == bot && r.name == name)

/-- `__isExist(Slots, …, raise_error=False)` in `add_entity`. -/
def isExist_slot (s : DB) (bot name : String) : Bool :=
  s.slots.any (fun r => r.bot == bot && r.name == name)

/-- `MongoProcessor.add_entity` (processor.py): raise "Entity already exist!"
on a duplicate name (any status), else save the entity and — when no slot of
that name exists for the bot — a companion `text`-typed slot. -/
def add_entity (s : DB) (name bot user : String) : Except String DB :=
  if isExist_entity s bot name then .error "Entity already exist!"
  else
    let s1 : DB := { s with
      entities := s.entities ++ [⟨s.nextId, name, bot, user, true⟩],
      nextId := s.nextId + 1 }
    if isExist_slot s1 bot name then .ok s1
    else .ok { s1 with slots := s1.slots ++ [newTextSlot name bot user] }

/-- `MongoProcessor.get_entities` (processor.py): all entities of the bot —
no `status` filter — as `(_id, name)` pairs. -/
def get_entities (s : DB) (bot : String) : List (Nat × String) :=
  (s.entities.filter (fun r => r.bot == bot)).map (fun r => (r.id, r.name))

/-- `__isExist(Actions, …)`: filters on `bot` and `name` only. -/
def isExist_action (s : DB) (bot name : String) : Bool :=
  s.actions.any (fun r => r.bot == bot && r.name == name)

/-- `MongoProcessor.add_action` (processor.py).  The duplicate error message
in the source is "Entity already exist!" (verbatim, for actions too). -/
def add_action (s : DB) (name bot user : String) : Except String DB :=
  if isExist_action s bot name then .error "Entity already exist!"
  else
    .ok { s with
      actions := s.actions ++ [⟨s.nextId, name, bot, user, true⟩],
      nextId := s.nextId + 1 }

/-- `MongoProcessor.get_actions` (processor.py): all actions of the bot — no
`status` filter — as `(_id, name)` pairs. -/
def get_actions (s : DB) (bot : String) : List (Nat × String) :=
  (s.actions.filter (fun r => r.bot == bot)).map (fun r => (r.id, r.name))

/-- `fetch_domain_entities`/`__prepare_training_domain_entities`
(processor.py): names of the bot's ACTIVE domain entities (this one does
filter on `status=True`). -/
def prepare_training_domain_entities (s : DB) (bot : String) : List String :=
  (s.entities.filter (fun r => r.bot == bot && r.status == true)).map (·.name)

/-- `MongoProcessor.__save_domain_entities` (processor.py): bulk-insert the
entity names not already among the bot's active entity names. -/
def save_domain_entities (s : DB) (entities : List String) (bot user : String) :
    DB :=
  if entities.isEmpty then s
  else
    let saved_entities := prepare_training_domain_entities s bot
    let new_entities := entities.filter (fun n => !(saved_entities.contains n))
    if new_entities.isEmpty then s
    else { s with
      entities := s.entities ++ new_entities.enum.map
        (fun p => ⟨s.nextId + p.1, p.2, bot, user, true⟩),
      nextId := s.nextId + new_entities.length }

/-- `MongoProcessor.__fetch_slot_names` (processor.py): names of the bot's
slots — the aggregation has no `status` filter. -/
def fetch_slot_names (s : DB) (bot : String) : List String :=
  (s.slots.filter (fun r => r.bot == bot)).map (·.name)

/-- `MongoProcessor.__add_slots_from_entities` (processor.py): a `text`-typed
slot for each entity name not already a slot name of the bot. -/
def add_slots_from_entities (s : DB) (entities : List String)
    (bot user : String) : DB :=
  let slot_name_list := fetch_slot_names s bot
  let slots := entities.filter (fun e => !(slot_name_list.contains e))
  if slots.isEmpty then s
  else { s with slots := s.slots ++ slots.map (fun e => newTextSlot e bot user) }

/-- `__isExist(TrainingExamples, bot=bot, query=(text : example))`: filters on
`bot` and `text` only, not on `status`. -/
def isExist_training_example (s : DB) (bot text : String) : Bool :=
  s.trainingExamples.any (fun r => r.bot == bot && r.text == text)

/-- `MongoProcessor.add_training_example` (processor.py).  The inline
entity-markup machinery is external to the files under verification
(rasa `MarkdownReader._find_entities_in_training_example` and the `ent_regex`
substitution), so it is passed in: `findEntities` extracts the annotated
entity spans of an example text and `stripMarkup` deletes the markup.  The
repository logic: fail on an existing `(bot, text)` (any status); auto-create
the intent when missing; when the text is non-blank and carries entity
markup, register the entity names as domain entities and as slots and store
the stripped text with the extracted spans; finally save the example.  The
source's `example` parameter is a Lean keyword, renamed `exampleText`. -/
def add_training_example (findEntities : String → List Entity)
    (stripMarkup : String → String) (s : DB)
    (exampleText intent bot user : String) : Except String DB :=
  if isExist_training_example s bot exampleText then
    .error "Training Example already exist!"
  else
    let s1 : DB :=
      if s.intents.any (fun r => r.bot == bot && r.name == intent) then s
      else { s with
        intents := s.intents ++ [⟨s.nextId, intent, bot, user, true⟩],
        nextId := s.nextId + 1 }
    let entities := if check_empty_string exampleText then [] else
      findEntities exampleText
    if entities.isEmpty then
      .ok { s1 with
        trainingExamples := s1.trainingExamples ++
          [⟨s1.nextId, intent, exampleText, bot, [], user, true⟩],
        nextId := s1.nextId + 1 }
    else
      let ext_entity := entities.map (·.entity)
      let s2 := save_domain_entities s1 ext_entity bot user
      let s3 := add_slots_from_entities s2 ext_entity bot user
      .ok { s3 with
        trainingExamples := s3.trainingExamples ++
          [⟨s3.nextId, intent, stripMarkup exampleText, bot, entities, user,
            true⟩],
        nextId := s3.nextId + 1 }

/-- `MongoProcessor.get_training_examples` (processor.py): all training
examples of the bot with the given intent — no `status` filter — as
`(_id, Utility.prepare_nlu_text(text, entities))` pairs; `prepare_nlu_text`
(bot_trainer/utils.py, external to the files under verification, a row-local
text formatter) is passed in as `prep`. -/
def get_training_examples (prep : String → List Entity → String) (s : DB)
    (intent bot : String) : List (Nat × String) :=
  (s.trainingExamples.filter (fun r => r.bot == bot && r.intent == intent)).map
    (fun r => (r.id, prep r.text r.entities))

/-- C10: the `status` flag is ignored by the listing operations and by the
duplicate-existence check.  Every soft-deleted (`status = false`) record of
the bot still appears in the output of `get_intents` / `get_entities` /
`get_actions` / `get_training_examples`, and a subsequent `add_intent` /
`add_entity` / `add_action` / `add_training_example` for the same
`(bot, name or text)` still fails with the respective "already exist" error,
because neither the getters' queries nor `__isExist` filter on `status`. -/
theorem status_ignored_by_getters_and_isExist (s : DB) (bot user : String)
    (prep : String → List Entity → String) (findE : String → List Entity)
    (strip : String → String) :
    (∀ r ∈ s.intents, r.status = false → r.bot = bot →
        (r.id, r.name) ∈ get_intents s bot ∧
          add_intent s r.name bot user = .error "Intent already exist!") ∧
      (∀ r ∈ s.entities, r.status = false → r.bot = bot →
        (r.id, r.name) ∈ get_entities s bot ∧
          add_entity s r.name bot user = .error "Entity already exist!") ∧
      (∀ r ∈ s.actions, r.status = false → r.bot = bot →
        (r.id, r.name) ∈ get_actions s bot ∧
          add_action s r.name bot user = .error "Entity already exist!") ∧
      (∀ r ∈ s.trainingExamples, r.status = false → r.bot = bot →
        (r.id, prep r.text r.entities) ∈
            get_training_examples prep s r.intent bot ∧
          add_training_example findE strip s r.text r.intent bot user =
            .error "Training Example already exist!") := by
  refine ⟨?_, ?_, ?_, ?_⟩
  · intro r hmem _ hbot
    constructor
    · exact List.mem_map.mpr
        ⟨r, List.mem_filter.mpr ⟨hmem, by simp [hbot]⟩, rfl⟩
    · have : isExist_intent s bot r.name = true :=
        List.any_eq_true.mpr ⟨r, hmem, by simp [hbot]⟩
      simp [add_intent, this]
  · intro r hmem _ hbot
    constructor
    · exact List.mem_map.mpr
        ⟨r, List.mem_filter.mpr ⟨hmem, by simp [hbot]⟩, rfl⟩
    · have : isExist_entity s bot r.name = true :=
        List.any_eq_true.mpr ⟨r, hmem, by simp [hbot]⟩
      simp [add_entity, this]
  · intro r hmem _ hbot
    constructor
    · exact List.mem_map.mpr
        ⟨r, List.mem_filter.mpr ⟨hmem, by simp [hbot]⟩, rfl⟩
    · have : isExist_action s bot r.name = true :=
        List.any_eq_true.mpr ⟨r, hmem, by simp [hbot]⟩
      simp [add_action, this]
  · intro r hmem _ hbot
    constructor
    · exact List.mem_map.mpr
        ⟨r, List.mem_filter.mpr ⟨hmem, by simp [hbot]⟩, rfl⟩
    · have : isExist_training_example s bot r.text = true :=
        List.any_eq_true.mpr ⟨r, hmem, by simp [hbot]⟩
      simp [add_training_example, this]

/-- A store whose every collection holds one soft-deleted record of
`test_bot`. -/
def softDeletedDemoDB : DB :=
  { emptyDB with
    trainingExamples := [⟨3, "greet", "hi there", "test_bot", [], "u", false⟩],
    intents := [⟨0, "greet", "test_bot", "u", false⟩],
    entities := [⟨1, "location", "test_bot", "u", false⟩],
    actions := [⟨2, "action_greet", "test_bot", "u", false⟩],
    nextId := 4 }

theorem status_ignored_witness :
    ((0, "greet") ∈ get_intents softDeletedDemoDB "test_bot" ∧
        add_intent softDeletedDemoDB "greet" "test_bot" "u2" =
          .error "Intent already exist!") ∧
      ((1, "location") ∈ get_entities softDeletedDemoDB "test_bot" ∧
        add_entity softDeletedDemoDB "location" "test_bot" "u2" =
          .error "Entity already exist!") ∧
      ((2, "action_greet") ∈ get_actions softDeletedDemoDB "test_bot" ∧
        add_action softDeletedDemoDB "action_greet" "test_bot" "u2" =
          .error "Entity already exist!") ∧
      ((3, "hi there") ∈
          get_training_examples (fun t _ => t) softDeletedDemoDB
            "greet" "test_bot" ∧
        add_training_example (fun _ => []) (fun t => t) softDeletedDemoDB
            "hi there" "greet" "test_bot" "u2" =
          .error "Training Example already exist!") := by
  have h := status_ignored_by_getters_and_isExist softDeletedDemoDB "test_bot"
    "u2" (fun t _ => t) (fun _ => []) (fun t => t)
  exact ⟨h.1 ⟨0, "greet", "test_bot", "u", false⟩ (by decide) rfl rfl,
    h.2.1 ⟨1, "location", "test_bot", "u", false⟩ (by decide) rfl rfl,
    h.2.2.1 ⟨2, "action_greet", "test_bot", "u", false⟩ (by decide) rfl rfl,
    h.2.2.2 ⟨3, "greet", "hi there", "test_bot", [], "u", false⟩
      (by decide) rfl rfl⟩

/-! ### `save_nlu` / `load_nlu` (processor.py) -/

/-- rasa `Message`: a training example as it appears in
`nlu.training_examples` and as `fetch_training_examples` reconstructs it
(`message.data` carries an `entities` key only when spans are present). -/
structure TD_Message where
  text : String
  intent : String
  entities : Option (List Entity)
deriving DecidableEq, Repr

/-- A lookup table of `nlu.lookup_tables`: a name with its elements. -/
structure TD_LookupTable where
  name : String
  elements : List String
deriving DecidableEq, Repr

/-- A regex feature of `nlu.regex_features`. -/
structure TD_RegexFeature where
  name : String
  pattern : String
deriving DecidableEq, Repr

/-- rasa `TrainingData` as `save_nlu` consumes it.  `entity_synonyms` is a
Python dict, embedded as its item list in iteration order; being a dict, its
keys are pairwise distinct. -/
structure TrainingDataIn where
  training_examples : List TD_Message
  entity_synonyms : List (String × String)
  lookup_tables : List TD_LookupTable
  regex_features : List TD_RegexFeature
deriving DecidableEq, Repr

/-- `__save_training_examples`/`__extract_training_examples` (processor.py):
one `TrainingExamples` row per message, `status` defaulting to active, bulk
inserted (object ids drawn from the id counter). -/
def save_training_examples (s : DB) (training_examples : List TD_Message)
    (bot user : String) : DB :=
  { s with
    trainingExamples := s.trainingExamples ++ training_examples.enum.map
      (fun p => ⟨s.nextId + p.1, p.2.intent, p.2.text, bot,
        p.2.entities.getD [], user, true⟩),
    nextId := s.nextId + training_examples.length }

/-- `__save_entity_synonyms`/`__extract_synonyms` (processor.py): for each
dict item `(key, value)`, a row `EntitySynonyms(synonym=value, value=key)`. -/
def save_entity_synonyms (s : DB) (entity_synonyms : List (String × String))
    (bot user : String) : DB :=
  { s with
    entitySynonyms := s.entitySynonyms ++ entity_synonyms.map
      (fun kv => ⟨bot, kv.2, kv.1, user, true⟩) }

/-- `__save_lookup_tables`/`__extract_lookup_tables` (processor.py): one row
per `(name, element)` pair of each lookup table. -/
def save_lookup_tables (s : DB) (lookup_tables : List TD_LookupTable)
    (bot user : String) : DB :=
  { s with
    lookupTables := s.lookupTables ++ (lookup_tables.map
      (fun t => t.elements.map
        (fun e => (⟨t.name, e, bot, user, true⟩ : LookupTableRec)))).flatten }

/-- `__save_regex_features`/`__extract_regex_features` (processor.py): one
row per regex feature. -/
def save_regex_features (s : DB) (regex_features : List TD_RegexFeature)
    (bot user : String) : DB :=
  { s with
    regexFeatures := s.regexFeatures ++ regex_features.map
      (fun f => ⟨f.name, f.pattern, bot, user, true⟩) }

/-- `MongoProcessor.save_nlu` (processor.py): decompose the training data
into the four collections, in source order. -/
def save_nlu (s : DB) (nlu : TrainingDataIn) (bot user : String) : DB :=
  save_regex_features
    (save_lookup_tables
      (save_entity_synonyms
        (save_training_examples s nlu.training_examples bot user)
        nlu.entity_synonyms bot user)
      nlu.lookup_tables bot user)
    nlu.regex_features bot user

/-- `fetch_training_examples`/`__prepare_training_examples` (processor.py):
the bot's ACTIVE rows, rebuilt as messages. -/
def fetch_training_examples (s : DB) (bot : String) : List TD_Message :=
  (s.trainingExamples.filter (fun r => r.bot == bot && r.status == true)).map
    (fun r => ⟨r.text, r.intent,
      if r.entities.isEmpty then none else some r.entities⟩)

/-- `dict(ChainMap(*dicts))` over a list of singleton dicts in row order:
the first dict containing a key wins, so keep the first occurrence of each
key. -/
def dedupKeysFirst : List (String × String) → List (String × String)
  | [] => []
  | kv :: rest => kv :: dedupKeysFirst (rest.filter (fun p => p.1 != kv.1))
termination_by l => l.length
decreasing_by
  simp only [List.length_cons]
  exact Nat.lt_succ_of_le (List.length_filter_le _ _)

/-- `fetch_synonyms`/`__prepare_training_synonyms` (processor.py): one
singleton dict `(value : synonym)` per active row, merged through
`ChainMap` into one dict. -/
def prepare_training_synonyms (s : DB) (bot : String) :
    List (String × String) :=
  dedupKeysFirst
    ((s.entitySynonyms.filter (fun r => r.bot == bot && r.status == true)).map
      (fun r => (r.value, r.synonym)))

/-- The `$group` by `name` aggregation with `$push` of values
(`fetch_lookup_tables`): one output group per distinct name (first-occurrence
order), its elements pushed in row order. -/
def groupByName : List (String × String) → List (String × List String)
  | [] => []
  | (n, v) :: rest =>
    (n, v :: (rest.filter (fun p => p.1 == n)).map Prod.snd) ::
      groupByName (rest.filter (fun p => p.1 != n))
termination_by l => l.length
decreasing_by
  simp only [List.length_cons]
  exact Nat.lt_succ_of_le (List.length_filter_le _ _)

/-- `fetch_lookup_tables`/`__prepare_training_lookup_tables` (processor.py):
the bot's active rows regrouped by `name`. -/
def prepare_training_lookup_tables (s : DB) (bot : String) :
    List (String × List String) :=
  groupByName
    ((s.lookupTables.filter (fun r => r.bot == bot && r.status == true)).map
      (fun r => (r.name, r.value)))

/-- `fetch_regex_features`/`__prepare_training_regex_features`
(processor.py): one `(name, pattern)` item per active row (the source labels
the pattern `'elements'`). -/
def prepare_training_regex_features (s : DB) (bot : String) :
    List (String × String) :=
  (s.regexFeatures.filter (fun r => r.bot == bot && r.status == true)).map
    (fun r => (r.name, r.pattern))

/-- The `TrainingData` object `load_nlu` rebuilds. -/
structure LoadedTrainingData where
  training_examples : List TD_Message
  entity_synonyms : List (String × String)
  lookup_tables : List (String × List String)
  regex_features : List (String × String)
deriving DecidableEq, Repr

/-- `MongoProcessor.load_nlu` (processor.py). -/
def load_nlu (s : DB) (bot : String) : LoadedTrainingData :=
  ⟨fetch_training_examples s bot, prepare_training_synonyms s bot,
    prepare_training_lookup_tables s bot,
    prepare_training_regex_features s bot⟩

/-- No ACTIVE rows for the bot in any of the four nlu collections (rows of
other bots and soft-deleted rows of this bot may be present; the load path
excludes them). -/
def noActiveNluRows (s : DB) (bot : String) : Prop :=
  s.trainingExamples.filter (fun r => r.bot == bot && r.status == true) = []
    ∧ s.entitySynonyms.filter (fun r => r.bot == bot && r.status == true) = []
    ∧ s.lookupTables.filter (fun r => r.bot == bot && r.status == true) = []
    ∧ s.regexFeatures.filter (fun r => r.bot == bot && r.status == true) = []

theorem dedupKeysFirst_of_nodup (l : List (String × String))
    (h : (l.map Prod.fst).Nodup) : dedupKeysFirst l = l := by
  induction l with
  | nil => simp [dedupKeysFirst]
  | cons kv rest ih =>
    simp only [List.map_cons, List.nodup_cons] at h
    have hfil : rest.filter (fun p => p.1 != kv.1) = rest := by
      refine List.filter_eq_self.mpr ?_
      intro p hp
      simp only [bne_iff_ne, ne_eq, decide_eq_true_eq]
      intro hc
      exact h.1 (List.mem_map.mpr ⟨p, hp, hc⟩)
    simp only [dedupKeysFirst]
    rw [hfil, ih h.2]

theorem groupByName_flatten_length (tables : List TD_LookupTable)
    (hnd : (tables.map (·.name)).Nodup)
    (hne : ∀ t ∈ tables, t.elements ≠ []) :
    (groupByName ((tables.map
        (fun t => t.elements.map (fun e => (t.name, e)))).flatten)).length =
      tables.length := by
  induction tables with
  | nil => simp [groupByName]
  | cons t rest ih =>
    simp only [List.map_cons, List.nodup_cons] at hnd
    obtain ⟨e, es, hes⟩ : ∃ e es, t.elements = e :: es := by
      cases htel : t.elements with
      | nil => exact absurd htel (hne t (by simp))
      | cons e es => exact ⟨e, es, rfl⟩
    have hrest : ∀ p ∈ (rest.map
        (fun t2 => t2.elements.map (fun e2 => (t2.name, e2)))).flatten,
        (p : String × String).1 ≠ t.name := by
      intro p hp
      rcases List.mem_flatten.mp hp with ⟨l, hl, hpl⟩
      rcases List.mem_map.mp hl with ⟨t2, ht2, rfl⟩
      rcases List.mem_map.mp hpl with ⟨e2, _, rfl⟩
      intro hc
      exact hnd.1 (List.mem_map.mpr ⟨t2, ht2, hc⟩)
    have hfil1 : (es.map (fun e2 => (t.name, e2))).filter
        (fun p => p.1 != t.name) = [] := by
      refine List.filter_eq_nil_iff.mpr ?_
      intro p hp
      rcases List.mem_map.mp hp with ⟨e2, _, rfl⟩
      simp
    have hfil2 : ((rest.map
          (fun t2 => t2.elements.map (fun e2 => (t2.name, e2)))).flatten).filter
        (fun p => p.1 != t.name) =
        (rest.map
          (fun t2 => t2.elements.map (fun e2 => (t2.name, e2)))).flatten := by
      refine List.filter_eq_self.mpr ?_
      intro p hp
      simpa using hrest p hp
    simp only [hes, List.map_cons, List.flatten_cons, List.cons_append]
    simp only [groupByName]
    simp only [List.length_cons]
    rw [List.filter_append, hfil1, hfil2, List.nil_append]
    rw [ih hnd.2 (fun t2 ht2 => hne t2 (List.mem_cons_of_mem t ht2))]

theorem load_nlu_counts (s : DB) (nlu : TrainingDataIn) (bot user : String)
    (hempty : noActiveNluRows s bot)
    (hkeys : (nlu.entity_synonyms.map Prod.fst).Nodup)
    (hnames : (nlu.lookup_tables.map (·.name)).Nodup)
    (hne : ∀ t ∈ nlu.lookup_tables, t.elements ≠ []) :
    (load_nlu (save_nlu s nlu bot user) bot).training_examples.length =
        nlu.training_examples.length ∧
      (load_nlu (save_nlu s nlu bot user) bot).entity_synonyms.length =
        nlu.entity_synonyms.length ∧
      (load_nlu (save_nlu s nlu bot user) bot).lookup_tables.length =
        nlu.lookup_tables.length ∧
      (load_nlu (save_nlu s nlu bot user) bot).regex_features.length =
        nlu.regex_features.length := by
  obtain ⟨h1, h2, h3, h4⟩ := hempty
  have hTE : (save_nlu s nlu bot user).trainingExamples =
      s.trainingExamples ++ nlu.training_examples.enum.map
        (fun p => ⟨s.nextId + p.1, p.2.intent, p.2.text, bot,
          p.2.entities.getD [], user, true⟩) := rfl
  have hSyn : (save_nlu s nlu bot user).entitySynonyms =
      s.entitySynonyms ++ nlu.entity_synonyms.map
        (fun kv => ⟨bot, kv.2, kv.1, user, true⟩) := rfl
  have hLook : (save_nlu s nlu bot user).lookupTables =
      s.lookupTables ++ (nlu.lookup_tables.map
        (fun t => t.elements.map
          (fun e => (⟨t.name, e, bot, user, true⟩ : LookupTableRec)))).flatten
      := rfl
  have hRegex : (save_nlu s nlu bot user).regexFeatures =
      s.regexFeatures ++ nlu.regex_features.map
        (fun f => ⟨f.name, f.pattern, bot, user, true⟩) := rfl
  refine ⟨?_, ?_, ?_, ?_⟩
  · have hfilNew : (nlu.training_examples.enum.map
        (fun p => (⟨s.nextId + p.1, p.2.intent, p.2.text, bot,
          p.2.entities.getD [], user, true⟩ : TrainingExampleRec))).filter
          (fun r => r.bot == bot && r.status == true) =
        nlu.training_examples.enum.map
          (fun p => (⟨s.nextId + p.1, p.2.intent, p.2.text, bot,
            p.2.entities.getD [], user, true⟩ : TrainingExampleRec)) := by
      refine List.filter_eq_self.mpr ?_
      intro r hr
      rcases List.mem_map.mp hr with ⟨p, _, rfl⟩
      simp
    simp only [load_nlu, fetch_training_examples, hTE, List.filter_append,
      h1, List.nil_append, hfilNew, List.length_map, List.enum_length]
  · have hfilNew : (nlu.entity_synonyms.map
        (fun kv => (⟨bot, kv.2, kv.1, user, true⟩ : EntitySynonymRec))).filter
          (fun r => r.bot == bot && r.status == true) =
        nlu.entity_synonyms.map
          (fun kv => (⟨bot, kv.2, kv.1, user, true⟩ : EntitySynonymRec)) := by
      refine List.filter_eq_self.mpr ?_
      intro r hr
      rcases List.mem_map.mp hr with ⟨kv, _, rfl⟩
      simp
    have hcompSyn : ((fun r : EntitySynonymRec => (r.value, r.synonym)) ∘
        fun kv : String × String =>
          (⟨bot, kv.2, kv.1, user, true⟩ : EntitySynonymRec)) = id := by
      funext kv
      rfl
    have hmapback : (nlu.entity_synonyms.map
        (fun kv => (⟨bot, kv.2, kv.1, user, true⟩ : EntitySynonymRec))).map
          (fun r => (r.value, r.synonym)) = nlu.entity_synonyms := by
      rw [List.map_map, hcompSyn, List.map_id]
    simp only [load_nlu, prepare_training_synonyms, hSyn, List.filter_append,
      h2, List.nil_append, hfilNew, hmapback]
    rw [dedupKeysFirst_of_nodup nlu.entity_synonyms hkeys]
  · have hfilNew : ((nlu.lookup_tables.map
        (fun t => t.elements.map
          (fun e => (⟨t.name, e, bot, user, true⟩ : LookupTableRec)))).flatten).filter
          (fun r => r.bot == bot && r.status == true) =
        (nlu.lookup_tables.map
          (fun t => t.elements.map
            (fun e => (⟨t.name, e, bot, user, true⟩ : LookupTableRec)))).flatten := by
      refine List.filter_eq_self.mpr ?_
      intro r hr
      rcases List.mem_flatten.mp hr with ⟨l, hl, hrl⟩
      rcases List.mem_map.mp hl with ⟨t, _, rfl⟩
      rcases List.mem_map.mp hrl with ⟨e, _, rfl⟩
      simp
    have hmapback : ((nlu.lookup_tables.map
        (fun t => t.elements.map
          (fun e => (⟨t.name, e, bot, user, true⟩ : LookupTableRec)))).flatten).map
          (fun r => (r.name, r.value)) =
        (nlu.lookup_tables.map
          (fun t => t.elements.map (fun e => (t.name, e)))).flatten := by
      have hcompLk : ((List.map fun r : LookupTableRec => (r.name, r.value)) ∘
          fun t : TD_LookupTable => t.elements.map
            (fun e => (⟨t.name, e, bot, user, true⟩ : LookupTableRec))) =
          fun t : TD_LookupTable => t.elements.map (fun e => (t.name, e)) := by
        funext t
        simp only [Function.comp_apply, List.map_map]
        rfl
      rw [List.map_flatten, List.map_map, hcompLk]
    simp only [load_nlu, prepare_training_lookup_tables, hLook,
      List.filter_append, h3, List.nil_append, hfilNew, hmapback]
    exact groupByName_flatten_length nlu.lookup_tables hnames hne
  · have hfilNew : (nlu.regex_features.map
        (fun f => (⟨f.name, f.pattern, bot, user, true⟩ : RegexFeatureRec))).filter
          (fun r => r.bot == bot && r.status == true) =
        nlu.regex_features.map
          (fun f => (⟨f.name, f.pattern, bot, user, true⟩ : RegexFeatureRec)) := by
      refine List.filter_eq_self.mpr ?_
      intro r hr
      rcases List.mem_map.mp hr with ⟨f, _, rfl⟩
      simp
    simp only [load_nlu, prepare_training_regex_features, hRegex,
      List.filter_append, h4, List.nil_append, hfilNew, List.length_map]

/-- C1: `save_nlu` followed by `load_nlu` round-trips the item counts.
Starting from a store with no active rows for the bot (soft-deleted rows are
excluded by the load path), saving a training-data object with `N` training
examples, `M` synonym dict entries, `K` lookup tables (distinct names, each
with at least one element — a table contributes rows only through its
elements) and `J` regex features, in any insertion order (`nlu2` is any
componentwise permutation of `nlu`), loads back exactly `N` active training
examples, a synonym dict of `M` entries, `K` regrouped lookup entries and `J`
regex features. -/
theorem save_load_nlu_roundtrip_counts (s : DB) (nlu nlu2 : TrainingDataIn)
    (bot user : String)
    (hempty : noActiveNluRows s bot)
    (hkeys : (nlu.entity_synonyms.map Prod.fst).Nodup)
    (hnames : (nlu.lookup_tables.map (·.name)).Nodup)
    (hne : ∀ t ∈ nlu.lookup_tables, t.elements ≠ [])
    (hp1 : nlu2.training_examples.Perm nlu.training_examples)
    (hp2 : nlu2.entity_synonyms.Perm nlu.entity_synonyms)
    (hp3 : nlu2.lookup_tables.Perm nlu.lookup_tables)
    (hp4 : nlu2.regex_features.Perm nlu.regex_features) :
    (load_nlu (save_nlu s nlu2 bot user) bot).training_examples.length =
        nlu.training_examples.length ∧
      (load_nlu (save_nlu s nlu2 bot user) bot).entity_synonyms.length =
        nlu.entity_synonyms.length ∧
      (load_nlu (save_nlu s nlu2 bot user) bot).lookup_tables.length =
        nlu.lookup_tables.length ∧
      (load_nlu (save_nlu s nlu2 bot user) bot).regex_features.length =
        nlu.regex_features.length := by
  have hkeys2 : (nlu2.entity_synonyms.map Prod.fst).Nodup :=
    ((hp2.map Prod.fst).nodup_iff).mpr hkeys
  have hnames2 : (nlu2.lookup_tables.map (·.name)).Nodup :=
    ((hp3.map (·.name)).nodup_iff).mpr hnames
  have hne2 : ∀ t ∈ nlu2.lookup_tables, t.elements ≠ [] :=
    fun t ht => hne t (hp3.mem_iff.mp ht)
  have base := load_nlu_counts s nlu2 bot user hempty hkeys2 hnames2 hne2
  exact ⟨base.1.trans hp1.length_eq, base.2.1.trans hp2.length_eq,
    base.2.2.1.trans hp3.length_eq, base.2.2.2.trans hp4.length_eq⟩

/-- A concrete training-data object: 2 examples, 2 synonym entries, 2 lookup
tables, 1 regex feature. -/
def demoNlu : TrainingDataIn :=
  ⟨[⟨"hello there", "greet", none⟩, ⟨"bye", "goodbye", none⟩],
    [("NYC", "new york"), ("LA", "los angeles")],
    [⟨"cities", ["NYC", "LA"]⟩, ⟨"cuisines", ["thai"]⟩],
    [⟨"zipcode", "[0-9]\x7b5\x7d"⟩]⟩

/-- `demoNlu` with each component list permuted. -/
def demoNluShuffled : TrainingDataIn :=
  ⟨[⟨"bye", "goodbye", none⟩, ⟨"hello there", "greet", none⟩],
    [("LA", "los angeles"), ("NYC", "new york")],
    [⟨"cuisines", ["thai"]⟩, ⟨"cities", ["NYC", "LA"]⟩],
    [⟨"zipcode", "[0-9]\x7b5\x7d"⟩]⟩

theorem save_load_nlu_roundtrip_counts_witness :
    (load_nlu (save_nlu emptyDB demoNluShuffled "test_bot" "u") "test_bot"
        ).training_examples.length = demoNlu.training_examples.length ∧
      (load_nlu (save_nlu emptyDB demoNluShuffled "test_bot" "u") "test_bot"
        ).entity_synonyms.length = demoNlu.entity_synonyms.length ∧
      (load_nlu (save_nlu emptyDB demoNluShuffled "test_bot" "u") "test_bot"
        ).lookup_tables.length = demoNlu.lookup_tables.length ∧
      (load_nlu (save_nlu emptyDB demoNluShuffled "test_bot" "u") "test_bot"
        ).regex_features.length = demoNlu.regex_features.length :=
  save_load_nlu_roundtrip_counts emptyDB demoNlu demoNluShuffled "test_bot" "u"
    ⟨rfl, rfl, rfl, rfl⟩ (by decide) (by decide) (by decide)
    (by decide) (by decide) (by decide) (by decide)

end BotTrainer
